import Mathlib

/-!
Verification development for the streaming job-matching pipeline of the
Theo-Job-Ai repository.  The Python sources embedded here are
`src/job_finder.py` (class `JobFinder`: `search_jobs`, `_select_best_jobs`,
`_ensure_job_contacts`, `_infer_email`) and `app.py`
(`save_jobs_cache`, `load_jobs_cache`, the `/api/jobs/search` endpoint with
its `generate` SSE producer, and `/api/jobs/results`).

Python strings are modelled as `List Char` (`Str`); machine-level details
that the claims do not touch (JSON/SSE escaping, file I/O round-tripping,
the prompt text sent to the oracle) are abstracted: the oracle's reply is a
parameter of type `Except Unit (List OracleItem)`, where `Except.error`
stands for every raising path of the `try` block (API failure, timeout,
malformed JSON, missing keys) and `Except.ok items` for a successfully
parsed list of `{title, company, score, reason}` objects.
-/

/-- Python strings, modelled as lists of characters. -/
abbrev Str := List Char

/-- Digits of a natural number, modelling Python `str(n)` for `n ≥ 0`. -/
def numStr (n : Nat) : Str := Nat.toDigits 10 n

/-- Modelling Python `str(i)` for an int. -/
def intStr : Int → Str
  | Int.ofNat n => numStr n
  | Int.negSucc n => '-' :: numStr (n + 1)

/-- Python `", ".join(xs)`. -/
def joinComma (xs : List Str) : Str := List.intercalate ((", ").data) xs

/-- Python `pat in s` (substring containment), specialised to lists. -/
def hasSubstr (pat : Str) : Str → Bool
  | [] => pat.isEmpty
  | c :: t => pat.isPrefixOf (c :: t) || hasSubstr pat t

/-- The two-character separator `"//"` used by `_infer_email`. -/
def dsStr : Str := ('/') :: ('/') :: []

/-- The remainder of `s` after its first occurrence of `"//"`
(helper for Python `s.split("//", 1)[-1]`). -/
def afterDoubleSlash : Str → Str
  | [] => []
  | '/' :: '/' :: t => t
  | _ :: t => afterDoubleSlash t

/-- Python `s.split("//", 1)[-1]`: the part after the first `"//"`,
or `s` unchanged when `"//"` does not occur. -/
def splitAfterDoubleSlash (s : Str) : Str :=
  if hasSubstr dsStr s then afterDoubleSlash s else s

/-- Python `s.split("/", 1)[0]`: the part before the first `"/"`. -/
def beforeSlash : Str → Str
  | [] => []
  | '/' :: _ => []
  | c :: t => c :: beforeSlash t

/-- Python `s.replace("www.", "")`: remove every (left-to-right,
non-overlapping) occurrence of `"www."`. -/
def replaceWWW : Str → Str
  | 'w' :: 'w' :: 'w' :: '.' :: t => replaceWWW t
  | c :: t => c :: replaceWWW t
  | [] => []

/-- Python `s.lower()` (the sources only feed it ASCII company names). -/
def toLowerStr (s : Str) : Str := s.map Char.toLower

/-- Python `s.replace(" ", "")`: remove space characters (only U+0020). -/
def removeSpaces (s : Str) : Str := s.filter (fun c => !(c == ' '))

/-- `JobFinder._infer_email` from `src/job_finder.py`, lines 335-341:
derive an application contact from a company name and a url
(`url = ""` models an absent url). -/
def inferEmail (company url : Str) : Str :=
  let domain : Str :=
    if url ≠ [] ∧ hasSubstr dsStr url = true then
      replaceWWW (beforeSlash (splitAfterDoubleSlash url))
    else []
  let domain : Str :=
    if domain = [] then removeSpaces (toLowerStr company) ++ ((".com").data)
    else domain
  (("talentos@").data) ++ domain

/-- Python `a < b` on strings: lexicographic comparison by code point,
as `strLE a b` meaning `a ≤ b`. -/
def strLE : Str → Str → Bool
  | [], _ => true
  | _ :: _, [] => false
  | a :: as, b :: bs => if a < b then true else if b < a then false else strLE as bs

/-- A job posting, keys of the sample-job dicts in `src/job_finder.py`. -/
structure JobPosting where
  title : Str
  company : Str
  location : Str
  url : Str
  description : Str
  posted : Str
deriving DecidableEq

/-- One element of the parsed oracle reply:
`{"title": ..., "company": ..., "score": ..., "reason": ...}`. -/
structure OracleItem where
  title : Str
  company : Str
  score : Int
  reason : Str
deriving DecidableEq

/-- A selected job as produced by `_select_best_jobs`: the oracle item
after `job_data.update(original)` (posting fields from the original,
score and reason from the oracle), or a fallback record. -/
structure RankedJob where
  title : Str
  company : Str
  location : Str
  url : Str
  description : Str
  posted : Str
  score : Int
  reason : Str
deriving DecidableEq

/-- A job after `_ensure_job_contacts`: `apply_email` and 1-based `rank`
have been added. -/
structure ContactedJob where
  title : Str
  company : Str
  location : Str
  url : Str
  description : Str
  posted : Str
  score : Int
  reason : Str
  apply_email : Str
  rank : Nat
deriving DecidableEq

/-- The fixed fallback reason string of `_select_best_jobs`. -/
def fallbackReasonS : Str := ("Selecao automatica (fallback)").data

/-- `job_data.update(original)` for a reconciled oracle item: every posting
key overwrites the oracle dict, so only `score` and `reason` survive from
the oracle (its `title`/`company` equal the posting's by the match). -/
def mkRanked (item : OracleItem) (orig : JobPosting) : RankedJob :=
  { title := orig.title, company := orig.company, location := orig.location,
    url := orig.url, description := orig.description, posted := orig.posted,
    score := item.score, reason := item.reason }

/-- `{**job, "score": 50, "reason": "Selecao automatica (fallback)"}`. -/
def fallbackJob (j : JobPosting) : RankedJob :=
  { title := j.title, company := j.company, location := j.location,
    url := j.url, description := j.description, posted := j.posted,
    score := 50, reason := fallbackReasonS }

/-- The reconciliation loop of `_select_best_jobs` (lines 291-300): for each
oracle item, find the first pool posting with exactly equal company and
title; keep the merged record, drop the item when there is none. -/
def reconcile (jobs : List JobPosting) : List OracleItem → List RankedJob
  | [] => []
  | item :: rest =>
    match jobs.find? (fun j => j.company == item.company && j.title == item.title) with
    | some orig => mkRanked item orig :: reconcile jobs rest
    | none => reconcile jobs rest

/-- Python `sorted(l, key=...)` insert step for the `posted` key. -/
def insertByPosted (x : JobPosting) : List JobPosting → List JobPosting
  | [] => [x]
  | y :: l => if strLE x.posted y.posted then x :: y :: l else y :: insertByPosted x l

/-- Python `sorted(jobs, key=lambda x: x.get('posted', ''))`: a stable sort
by the `posted` label under lexicographic string order.  Python's stable
sort and this stable insertion sort agree on every list, because the key
order is a total preorder. -/
def sortByPosted : List JobPosting → List JobPosting
  | [] => []
  | x :: l => insertByPosted x (sortByPosted l)

/-- `JobFinder._select_best_jobs` (lines 278-322), with the oracle call and
JSON parsing abstracted into the `resp` parameter: `Except.ok items` is a
successfully parsed reply, `Except.error ()` any raising path (API failure,
timeout, malformed output).  The candidate profile and preferences only
shape the prompt, so they do not appear. -/
def selectBestJobs (jobs : List JobPosting) (resp : Except Unit (List OracleItem)) :
    List RankedJob :=
  match resp with
  | Except.ok selected =>
    let result := reconcile jobs selected
    if result = [] then (jobs.take 5).map fallbackJob
    else result.take 5
  | Except.error _ => ((sortByPosted jobs).take 5).map fallbackJob

/-- One step of `_ensure_job_contacts`: default the company used for the
email to `"empresa"` when falsy, infer the contact, attach the rank. -/
def mkContacted (rank : Nat) (j : RankedJob) : ContactedJob :=
  let companyForEmail : Str := if j.company = [] then ("empresa").data else j.company
  { title := j.title, company := j.company, location := j.location, url := j.url,
    description := j.description, posted := j.posted, score := j.score,
    reason := j.reason, apply_email := inferEmail companyForEmail j.url,
    rank := rank }

/-- The `enumerate(jobs, 1)` loop of `_ensure_job_contacts`. -/
def ensureFrom : Nat → List RankedJob → List ContactedJob
  | _, [] => []
  | i, j :: t => mkContacted i j :: ensureFrom (i + 1) t

/-- `JobFinder._ensure_job_contacts` (lines 324-333). -/
def ensureJobContacts (jobs : List RankedJob) : List ContactedJob :=
  ensureFrom 1 jobs

/-- `JobFinder.SAMPLE_JOBS_BR` from `src/job_finder.py`. -/
def SAMPLE_JOBS_BR : List JobPosting := [
  { title := ("Desenvolvedor Python Senior").data, company := ("Nubank").data,
    location := ("Sao Paulo, BR").data,
    url := ("https://jobs.nubank.com.br/python-senior").data,
    description := ("Procuramos desenvolvedor Python com 5+ anos. Experiencia em APIs REST, Flask/Django. Salario: R$15-20k").data,
    posted := ("2 dias").data },
  { title := ("Full Stack Developer (Node.js + React)").data, company := ("Stone Co").data,
    location := ("Sao Paulo, BR").data,
    url := ("https://jobs.stone.co/fullstack").data,
    description := ("Node.js, React, PostgreSQL. Remoto. Beneficios: vale refeicao, vale saude, flex.").data,
    posted := ("1 semana").data },
  { title := ("Senior Frontend Engineer").data, company := ("Creditas").data,
    location := ("Sao Paulo, BR").data,
    url := ("https://jobs.creditas.com/frontend").data,
    description := ("React, TypeScript, 7+ anos. Trabalhe em produtos de impacto. R$18-25k").data,
    posted := ("3 dias").data },
  { title := ("Backend Developer (Java/Spring)").data, company := ("BTG Pactual").data,
    location := ("Sao Paulo, BR").data,
    url := ("https://jobs.btgpactual.com/java").data,
    description := ("Java, Spring Boot, microservices. Fintech. 4+ anos experiencia.").data,
    posted := ("5 dias").data },
  { title := ("DevOps Engineer").data, company := ("Rappi").data,
    location := ("Sao Paulo, BR").data,
    url := ("https://jobs.rappi.com/devops").data,
    description := ("Docker, Kubernetes, AWS. 3+ anos. Remoto, full-time.").data,
    posted := ("1 semana").data }]

/-- `JobFinder.SAMPLE_JOBS_INT` from `src/job_finder.py`. -/
def SAMPLE_JOBS_INT : List JobPosting := [
  { title := ("Senior Software Engineer").data, company := ("Google").data,
    location := ("Mountain View, USA").data,
    url := ("https://careers.google.com/senior-engineer").data,
    description := ("Full-stack engineer. Python/Go. 5+ years. Competitive salary + equity.").data,
    posted := ("2 dias").data },
  { title := ("Backend Engineer (Python)").data, company := ("Stripe").data,
    location := ("San Francisco, USA").data,
    url := ("https://stripe.com/jobs/backend-python").data,
    description := ("Python, PostgreSQL, APIs. Remoto. $200k-250k USD + equity").data,
    posted := ("3 dias").data },
  { title := ("Full Stack Developer").data, company := ("Airbnb").data,
    location := ("Remote, Worldwide").data,
    url := ("https://airbnb.com/careers/fullstack").data,
    description := ("React, Node.js, Python. 3+ years. Great benefits, remote.").data,
    posted := ("4 dias").data },
  { title := ("Frontend Engineer (React)").data, company := ("Meta").data,
    location := ("London, UK").data,
    url := ("https://meta.com/jobs/frontend").data,
    description := ("React, TypeScript. 4+ years. Hybrid. GBP 140k-180k").data,
    posted := ("1 dia").data },
  { title := ("DevOps / Infrastructure Engineer").data, company := ("AWS").data,
    location := ("Remote (LATAM)").data,
    url := ("https://aws.amazon.com/careers/devops").data,
    description := ("Kubernetes, Terraform, CI/CD. 3+ years. Remote for LATAM.").data,
    posted := ("5 dias").data }]

/-- `jobs_br = SAMPLE_JOBS_BR if region in ["br", "both"] else []`. -/
def jobsBrFor (region : Str) : List JobPosting :=
  if region = ("br").data ∨ region = ("both").data then SAMPLE_JOBS_BR else []

/-- `jobs_int = SAMPLE_JOBS_INT if region in ["int", "both"] else []`. -/
def jobsIntFor (region : Str) : List JobPosting :=
  if region = ("int").data ∨ region = ("both").data then SAMPLE_JOBS_INT else []

/-- `all_jobs = jobs_br + jobs_int` in `search_jobs` (line 181). -/
def regionPool (region : Str) : List JobPosting :=
  jobsBrFor region ++ jobsIntFor region

/-- The profile dict as read from `data/user_profile.json`; the keys that
`search_jobs` displays.  All keys are taken as present (the profile is
written by the CV-analysis flow). -/
structure CandidateProfile where
  name : Str
  title : Str
  skills : List Str
  experience_years : Nat
  location : Str
  languages : List Str
  linkedin : Str
deriving DecidableEq

/-- The preference bundle of `search_jobs`.  Python truthiness of each key
is rendered by `[]`/`none` being falsy; `accept_travel` keeps the
`is not None` distinction, `location_radius_km` is falsy when `0`. -/
structure PreferenceSet where
  keywords : List Str
  required_keywords : List Str
  experience_levels : List Str
  work_modes : List Str
  company_sizes : List Str
  contract_types : List Str
  sectors : List Str
  education_level : Str
  accept_travel : Option Bool
  location_city : Str
  location_radius_km : Option Nat
deriving DecidableEq

/-- Python `"\n"`. -/
def nl : Str := ("\n").data

/-- The preference narration block of `search_jobs` (lines 140-165). -/
def prefMessages (p : PreferenceSet) : List Str :=
  [("[PREFERENCIAS] Aplicando orientacoes para a IA...\n").data]
  ++ (if p.keywords ≠ [] then
        [("- Keywords: ").data ++ joinComma p.keywords ++ nl] else [])
  ++ (if p.required_keywords ≠ [] then
        [("- Palavras importantes: ").data ++ joinComma p.required_keywords ++ nl] else [])
  ++ (if p.experience_levels ≠ [] then
        [("- Nivel experiencia: ").data ++ joinComma p.experience_levels ++ nl] else [])
  ++ (if p.work_modes ≠ [] then
        [("- Modalidade: ").data ++ joinComma p.work_modes ++ nl] else [])
  ++ (if p.company_sizes ≠ [] then
        [("- Tamanho empresa: ").data ++ joinComma p.company_sizes ++ nl] else [])
  ++ (if p.contract_types ≠ [] then
        [("- Tipo contrato: ").data ++ joinComma p.contract_types ++ nl] else [])
  ++ (if p.sectors ≠ [] then
        [("- Setores: ").data ++ joinComma p.sectors ++ nl] else [])
  ++ (if p.education_level ≠ [] then
        [("- Educacao: ").data ++ p.education_level ++ nl] else [])
  ++ (match p.accept_travel with
      | some b => [("- Viagens: ").data ++
          (if b then ("aceita").data else ("nao aceita").data) ++ nl]
      | none => [])
  ++ (if p.location_city ≠ [] then
        [("- Cidade base: ").data ++ p.location_city ++ nl] else [])
  ++ (match p.location_radius_km with
      | some r => if r ≠ 0 then [("- Raio: ").data ++ numStr r ++ (" km").data ++ nl] else []
      | none => [])
  ++ [nl]

/-- The eight narration lines printed for one displayed job
(`search_jobs`, lines 197-205). -/
def jobMessages (i : Nat) (job : ContactedJob) : List Str :=
  [("[").data ++ numStr i ++ ("] ").data ++ job.title ++ nl,
   ("    Empresa: ").data ++ job.company ++ nl,
   ("    Localizacao: ").data ++ job.location ++ nl,
   ("    Score: ").data ++ intStr job.score ++ ("/100").data ++ nl,
   ("    Motivo: ").data ++ job.reason ++ nl,
   ("    URL: ").data ++ job.url ++ nl,
   ("    Email: ").data ++ job.apply_email ++ nl,
   ("    Publicada: ").data ++ job.posted ++ nl ++ nl]

/-- The `for i, job in enumerate(self.last_results[:max_results], 1)` loop. -/
def perJobMessages : Nat → List ContactedJob → List Str
  | _, [] => []
  | i, j :: t => jobMessages i j ++ perJobMessages (i + 1) t

/-- Python `"="*80`. -/
def eqBar : Str := List.replicate 80 '='

/-- The closing narration line of `search_jobs` (line 209). -/
def concluidoMsg (selectedLen : Nat) : Str :=
  nl ++ ("[CONCLUIDO] Busca finalizada! ").data ++ numStr selectedLen
     ++ (" vagas identificadas.\n").data

/-- Every string yielded by `JobFinder.search_jobs` (lines 116-209), in
order, for a given oracle outcome `resp`. -/
def searchJobsMessages (profile : CandidateProfile) (region : Str) (maxResults : Nat)
    (prefs : Option PreferenceSet) (resp : Except Unit (List OracleItem)) : List Str :=
  let jobsBr := jobsBrFor region
  let jobsInt := jobsIntFor region
  let allJobs := regionPool region
  let selected := selectBestJobs allJobs resp
  let lastResults := ensureJobContacts selected
  [("[INICIANDO] Analisando seu perfil...\n").data,
   ("[PERFIL] ").data ++ profile.name ++ (" - ").data ++ profile.title
     ++ (" (").data ++ numStr profile.experience_years ++ (" anos)\n").data,
   ("[SKILLS] ").data ++ joinComma (profile.skills.take 8) ++ nl ++ nl]
  ++ (match prefs with | some p => prefMessages p | none => [])
  ++ [("[BUSCANDO] Coletando vagas brasileiras...\n").data,
      ("[OK] ").data ++ numStr jobsBr.length ++ (" vagas encontradas no Brasil\n\n").data,
      ("[BUSCANDO] Coletando vagas internacionais...\n").data,
      ("[OK] ").data ++ numStr jobsInt.length ++ (" vagas encontradas internacionalmente\n\n").data,
      ("[PROCESSANDO] Analisando ").data ++ numStr allJobs.length ++ (" vagas com IA...\n").data,
      ("[PENSAMENTO] Analisando match com seu perfil...\n").data,
      nl ++ ("[RESULTADO] ").data ++ numStr selected.length
         ++ (" vagas selecionadas como principais:\n\n").data,
      eqBar ++ nl ++ nl]
  ++ perJobMessages 1 (lastResults.take maxResults)
  ++ [eqBar ++ nl, concluidoMsg selected.length]

/-- Every string yielded by `search_jobs` except the final `[CONCLUIDO]`
line (used to expose the stream's last content event). -/
def searchJobsMessagesInit (profile : CandidateProfile) (region : Str) (maxResults : Nat)
    (prefs : Option PreferenceSet) (resp : Except Unit (List OracleItem)) : List Str :=
  let jobsBr := jobsBrFor region
  let jobsInt := jobsIntFor region
  let allJobs := regionPool region
  let selected := selectBestJobs allJobs resp
  let lastResults := ensureJobContacts selected
  [("[INICIANDO] Analisando seu perfil...\n").data,
   ("[PERFIL] ").data ++ profile.name ++ (" - ").data ++ profile.title
     ++ (" (").data ++ numStr profile.experience_years ++ (" anos)\n").data,
   ("[SKILLS] ").data ++ joinComma (profile.skills.take 8) ++ nl ++ nl]
  ++ (match prefs with | some p => prefMessages p | none => [])
  ++ [("[BUSCANDO] Coletando vagas brasileiras...\n").data,
      ("[OK] ").data ++ numStr jobsBr.length ++ (" vagas encontradas no Brasil\n\n").data,
      ("[BUSCANDO] Coletando vagas internacionais...\n").data,
      ("[OK] ").data ++ numStr jobsInt.length ++ (" vagas encontradas internacionalmente\n\n").data,
      ("[PROCESSANDO] Analisando ").data ++ numStr allJobs.length ++ (" vagas com IA...\n").data,
      ("[PENSAMENTO] Analisando match com seu perfil...\n").data,
      nl ++ ("[RESULTADO] ").data ++ numStr selected.length
         ++ (" vagas selecionadas como principais:\n\n").data,
      eqBar ++ nl ++ nl]
  ++ perJobMessages 1 (lastResults.take maxResults)
  ++ [eqBar ++ nl]

/-- `job_finder.get_last_results()` at the end of one search: the full
enriched selection, before the display cap. -/
def searchFullResults (region : Str) (resp : Except Unit (List OracleItem)) :
    List ContactedJob :=
  ensureJobContacts (selectBestJobs (regionPool region) resp)

/-- The items the `search_jobs` loop actually displays:
`self.last_results[:max_results]`. -/
def displayedJobs (jobs : List JobPosting) (resp : Except Unit (List OracleItem))
    (cap : Nat) : List ContactedJob :=
  (ensureJobContacts (selectBestJobs jobs resp)).take cap

/-- One server-sent event of the `/api/jobs/search` stream: a `data:`
content event carrying one narration message (SSE/JSON encoding
abstracted), or the distinct `event: end` marker. -/
inductive Event where
  | data (msg : Str)
  | endEvent
deriving DecidableEq

/-- One observable effect of the request handler: emitting an event, or
writing the jobs cache file. -/
inductive Effect where
  | emit (e : Event)
  | writeCache (updated_at : Nat) (results : List ContactedJob)
deriving DecidableEq

/-- The cache file `data/jobs_cache.json`: absent before the first write,
afterwards the payload of the last `save_jobs_cache`. -/
structure CacheSlot where
  updated_at : Nat
  results : List ContactedJob
deriving DecidableEq

/-- What `load_jobs_cache` returns to the reader. -/
structure CacheView where
  updated_at : Option Nat
  results : List ContactedJob
deriving DecidableEq

/-- `app.save_jobs_cache` (app.py lines 97-103): overwrite the slot with
`{"updated_at": now, "results": results}`. -/
def saveJobsCache (now : Nat) (results : List ContactedJob) :
    Option CacheSlot → Option CacheSlot :=
  fun _ => some { updated_at := now, results := results }

/-- `app.load_jobs_cache` (app.py lines 105-109): the last written payload,
or the `{"updated_at": None, "results": []}` default. -/
def loadJobsCache : Option CacheSlot → CacheView
  | none => { updated_at := none, results := [] }
  | some c => { updated_at := some c.updated_at, results := c.results }

/-- Run a trace of effects against the cache slot. -/
def execTrace (c : Option CacheSlot) : List Effect → Option CacheSlot
  | [] => c
  | Effect.emit _ :: t => execTrace c t
  | Effect.writeCache now r :: t => execTrace (saveJobsCache now r c) t

/-- The events of a trace, in order. -/
def emittedEvents (tr : List Effect) : List Event :=
  tr.filterMap (fun e => match e with | Effect.emit ev => some ev | _ => none)

/-- The `generate` closure of `search_jobs_api` (app.py lines 2516-2521):
one `data:` event per narration message, then the cache write with the full
result list, then the `event: end` marker. -/
def generateTrace (profile : CandidateProfile) (region : Str) (maxResults : Nat)
    (prefs : Option PreferenceSet) (resp : Except Unit (List OracleItem))
    (now : Nat) : List Effect :=
  (searchJobsMessages profile region maxResults prefs resp).map
      (fun m => Effect.emit (Event.data m))
  ++ [Effect.writeCache now (searchFullResults region resp),
      Effect.emit Event.endEvent]

/-- How one streaming request terminates: the ranking pipeline runs with
some oracle outcome, or the handler refuses to start. -/
inductive ApiOutcome where
  | oracleUnavailable
  | profileMissing
  | proceed (profile : CandidateProfile) (resp : Except Unit (List OracleItem))

/-- The error event of the `if not job_finder` stream (app.py line 2471). -/
def erroJobFinderMsg : Str := ("[ERRO] Job Finder nao disponivel\n").data

/-- The error event of the missing-profile stream (app.py line 2484). -/
def erroPerfilMsg : Str :=
  ("[ERRO] Perfil nao encontrado. Faca upload do CV primeiro.\n").data

/-- The full effect trace of one streaming `/api/jobs/search` request
(app.py lines 2468-2530): the two refusal paths emit a single error event
plus the end marker and never touch the cache; the success path runs
`generate`. -/
def searchApiTrace (o : ApiOutcome) (region : Str) (maxResults : Nat)
    (prefs : Option PreferenceSet) (now : Nat) : List Effect :=
  match o with
  | ApiOutcome.oracleUnavailable =>
      [Effect.emit (Event.data erroJobFinderMsg), Effect.emit Event.endEvent]
  | ApiOutcome.profileMissing =>
      [Effect.emit (Event.data erroPerfilMsg), Effect.emit Event.endEvent]
  | ApiOutcome.proceed profile resp =>
      generateTrace profile region maxResults prefs resp now

/-- Strip one leading `"www."`, as the claim C5 wording asks. -/
def stripLeadingWWW (s : Str) : Str :=
  if (('w') :: ('w') :: ('w') :: ('.') :: []).isPrefixOf s then s.drop 4 else s

/-- Remove every whitespace character, as the claim C5 wording asks. -/
def removeWhitespace (s : Str) : Str := s.filter (fun c => !c.isWhitespace)

/-- Written from the claim C5 wording, for comparison with `inferEmail`:
if the url is present and parseable (it contains the authority separator
`"//"`), return `"talentos@"` plus the network-authority component with a
leading `"www."` stripped; otherwise `"talentos@"` plus the lowercased
company with whitespace removed plus `".com"`. -/
def contactResolverClaim (company : Str) (url : Option Str) : Str :=
  match url with
  | some u =>
    if hasSubstr dsStr u then
      (("talentos@").data) ++ stripLeadingWWW (beforeSlash (splitAfterDoubleSlash u))
    else
      (("talentos@").data) ++ removeWhitespace (toLowerStr company) ++ ((".com").data)
  | none =>
      (("talentos@").data) ++ removeWhitespace (toLowerStr company) ++ ((".com").data)

/-- Written from the amended C5 wording: as the claim, except that every
occurrence of `"www."` in the authority is removed (not only a leading
one), that only space characters are removed from the company name, and
that the company branch also applies when the url is present but
unparseable or when removing `"www."` leaves the authority empty. -/
def contactResolverAmended (company : Str) (url : Option Str) : Str :=
  let domain : Str :=
    match url with
    | some u =>
      if u ≠ [] ∧ hasSubstr dsStr u = true then
        replaceWWW (beforeSlash (splitAfterDoubleSlash u))
      else []
    | none => []
  (("talentos@").data) ++
    (if domain = [] then removeSpaces (toLowerStr company) ++ ((".com").data)
     else domain)

/-! ## Concrete fixtures used by witnesses and counterexamples -/

/-- A posting whose `posted` label sorts after `cxJobB`'s. -/
def cxJobA : JobPosting :=
  { title := ("t1").data, company := ("c1").data, location := [], url := [],
    description := [], posted := ("b").data }

/-- A posting whose `posted` label sorts before `cxJobA`'s. -/
def cxJobB : JobPosting :=
  { title := ("t2").data, company := ("c2").data, location := [], url := [],
    description := [], posted := ("a").data }

/-- An oracle item matching `cxJobA` with a low in-range score. -/
def cxItemLow : OracleItem :=
  { title := ("t1").data, company := ("c1").data, score := 10, reason := ("r").data }

/-- An oracle item matching `cxJobB` with a high in-range score. -/
def cxItemHigh : OracleItem :=
  { title := ("t2").data, company := ("c2").data, score := 90, reason := ("r").data }

/-- An oracle item matching `cxJobA` with an out-of-range score. -/
def cxItemBig : OracleItem :=
  { title := ("t1").data, company := ("c1").data, score := 150, reason := ("r").data }

/-- An oracle item matching no posting of the pools used here. -/
def cxItemNoMatch : OracleItem :=
  { title := ("zz").data, company := ("zz").data, score := 70, reason := ("r").data }

/-- A minimal candidate profile. -/
def cxProfile : CandidateProfile :=
  { name := [], title := [], skills := [], experience_years := 0, location := [],
    languages := [], linkedin := [] }

/-- Scores sorted in descending order (ties allowed). -/
def sortedDescInt (l : List Int) : Prop := List.Pairwise (fun a b => b ≤ a) l

instance (l : List Int) : Decidable (sortedDescInt l) :=
  inferInstanceAs (Decidable (List.Pairwise _ l))

/-! ## Helper lemmas -/

theorem hasSubstr_nil_pat (s : Str) : hasSubstr [] s = true := by
  cases s <;> simp [hasSubstr, List.isPrefixOf, List.isEmpty]

theorem isPrefixOf_self_append (p r : Str) : p.isPrefixOf (p ++ r) = true := by
  induction p with
  | nil => simp [List.isPrefixOf]
  | cons c t ih => simp [List.isPrefixOf, ih]

theorem hasSubstr_self_append (pat r : Str) : hasSubstr pat (pat ++ r) = true := by
  cases pat with
  | nil => exact hasSubstr_nil_pat r
  | cons c t =>
    show (List.isPrefixOf (c :: t) ((c :: t) ++ r) || hasSubstr (c :: t) (t ++ r)) = true
    rw [isPrefixOf_self_append (c :: t) r]
    rfl

theorem hasSubstr_append_mid (pat pre r : Str) :
    hasSubstr pat (pre ++ (pat ++ r)) = true := by
  induction pre with
  | nil => simpa using hasSubstr_self_append pat r
  | cons d t ih =>
    show (List.isPrefixOf pat (d :: (t ++ (pat ++ r))) || hasSubstr pat (t ++ (pat ++ r))) = true
    rw [ih]
    exact Bool.or_true _

theorem length_ensureFrom (i : Nat) (l : List RankedJob) :
    (ensureFrom i l).length = l.length := by
  induction l generalizing i with
  | nil => rfl
  | cons j t ih => simp [ensureFrom, ih]

theorem length_ensureJobContacts (l : List RankedJob) :
    (ensureJobContacts l).length = l.length :=
  length_ensureFrom 1 l

theorem length_insertByPosted (x : JobPosting) (l : List JobPosting) :
    (insertByPosted x l).length = l.length + 1 := by
  induction l with
  | nil => rfl
  | cons y t ih =>
    by_cases h : strLE x.posted y.posted = true <;>
      simp [insertByPosted, h, ih]

theorem length_sortByPosted (l : List JobPosting) :
    (sortByPosted l).length = l.length := by
  induction l with
  | nil => rfl
  | cons x t ih => simp [sortByPosted, length_insertByPosted, ih]

theorem mem_insertByPosted (y x : JobPosting) (l : List JobPosting) :
    y ∈ insertByPosted x l → y = x ∨ y ∈ l := by
  induction l with
  | nil =>
    intro h
    simpa [insertByPosted] using h
  | cons z t ih =>
    intro h
    by_cases hc : strLE x.posted z.posted = true
    · rw [insertByPosted, if_pos hc] at h
      simpa [or_assoc] using h
    · rw [insertByPosted, if_neg hc] at h
      rcases List.mem_cons.mp h with h1 | h1
      · exact Or.inr (List.mem_cons.mpr (Or.inl h1))
      · rcases ih h1 with h2 | h2
        · exact Or.inl h2
        · exact Or.inr (List.mem_cons.mpr (Or.inr h2))

theorem mem_sortByPosted (y : JobPosting) (l : List JobPosting) :
    y ∈ sortByPosted l → y ∈ l := by
  induction l with
  | nil =>
    intro h
    simp [sortByPosted] at h
  | cons x t ih =>
    intro h
    rw [sortByPosted] at h
    rcases mem_insertByPosted y x (sortByPosted t) h with h1 | h1
    · exact List.mem_cons.mpr (Or.inl h1)
    · exact List.mem_cons.mpr (Or.inr (ih h1))

theorem length_selectBestJobs_le (jobs : List JobPosting)
    (resp : Except Unit (List OracleItem)) :
    (selectBestJobs jobs resp).length ≤ 5 := by
  cases resp with
  | ok selected =>
    by_cases h : reconcile jobs selected = []
    · simp [selectBestJobs, h, List.length_take]
    · simp [selectBestJobs, h, List.length_take]
  | error e =>
    simp [selectBestJobs, List.length_take]

theorem reconcile_scores_sublist (jobs : List JobPosting) (items : List OracleItem) :
    ((reconcile jobs items).map (fun r => r.score)).Sublist
      (items.map (fun it => it.score)) := by
  induction items with
  | nil => simp [reconcile]
  | cons item rest ih =>
    cases hf : jobs.find? (fun j => j.company == item.company && j.title == item.title) with
    | none =>
      simp only [reconcile, hf, List.map_cons]
      exact ih.cons _
    | some orig =>
      simp only [reconcile, hf, List.map_cons]
      exact ih.cons₂ _

theorem mem_reconcile {r : RankedJob} {jobs : List JobPosting} {items : List OracleItem}
    (h : r ∈ reconcile jobs items) :
    ∃ it ∈ items, ∃ p ∈ jobs,
      p.company = it.company ∧ p.title = it.title ∧ r = mkRanked it p := by
  induction items with
  | nil => simp [reconcile] at h
  | cons item rest ih =>
    cases hf : jobs.find? (fun j => j.company == item.company && j.title == item.title) with
    | none =>
      simp only [reconcile, hf] at h
      rcases ih h with ⟨it, hit, p, hp, hprops⟩
      exact ⟨it, List.mem_cons_of_mem _ hit, p, hp, hprops⟩
    | some orig =>
      simp only [reconcile, hf, List.mem_cons] at h
      rcases h with h | h
      · refine ⟨item, List.mem_cons_self _ _, orig, List.mem_of_find?_eq_some hf, ?_, ?_, h⟩
        · have := List.find?_some hf
          simp only [Bool.and_eq_true, beq_iff_eq] at this
          exact this.1
        · have := List.find?_some hf
          simp only [Bool.and_eq_true, beq_iff_eq] at this
          exact this.2
      · rcases ih h with ⟨it, hit, p, hp, hprops⟩
        exact ⟨it, List.mem_cons_of_mem _ hit, p, hp, hprops⟩

theorem reconcile_nil_jobs (items : List OracleItem) : reconcile [] items = [] := by
  induction items with
  | nil => rfl
  | cons item rest ih => simp [reconcile, List.find?, ih]

theorem execTrace_append (c : Option CacheSlot) (a b : List Effect) :
    execTrace c (a ++ b) = execTrace (execTrace c a) b := by
  induction a generalizing c with
  | nil => rfl
  | cons e t ih => cases e <;> simp [execTrace, ih]

theorem execTrace_map_emit (c : Option CacheSlot) (msgs : List Str)
    (f : Str → Event) :
    execTrace c (msgs.map (fun m => Effect.emit (f m))) = c := by
  induction msgs with
  | nil => rfl
  | cons m t ih => simp [execTrace, ih]

theorem emittedEvents_append (a b : List Effect) :
    emittedEvents (a ++ b) = emittedEvents a ++ emittedEvents b := by
  simp [emittedEvents]

theorem emittedEvents_map_emit (msgs : List Str) (f : Str → Event) :
    emittedEvents (msgs.map (fun m => Effect.emit (f m))) = msgs.map f := by
  induction msgs with
  | nil => rfl
  | cons m t ih => simp [emittedEvents] at ih ⊢; exact ih

theorem sortedDescInt_fallback (l : List JobPosting) :
    sortedDescInt ((l.map fallbackJob).map (fun r => r.score)) := by
  rw [List.map_map]
  have hconst : ((fun r : RankedJob => r.score) ∘ fallbackJob)
      = fun _ : JobPosting => (50 : Int) := rfl
  rw [hconst]
  induction l with
  | nil => exact List.Pairwise.nil
  | cons x t ih =>
    refine List.Pairwise.cons ?_ ih
    intro b hb
    simp only [List.mem_map] at hb
    rcases hb with ⟨_, _, rfl⟩
    exact le_refl _

/-! ## The claims -/

/-- C1 (amended): whenever the fallback policy triggers, the MatchingEngine
returns exactly `min (len P) 5` items, each with score 50 and the fixed
fallback reason, drawn from the pool `P`.  On zero reconciled items they are
the first postings of `P` in original pool order; on oracle failure,
timeout or malformed output (the raising paths) they are instead the first
`min (len P) 5` postings of `P` after a stable ascending sort on the
`posted` label, not in original pool order. -/
theorem c1_fallback_amended (jobs : List JobPosting) (items : List OracleItem) :
    (reconcile jobs items = [] →
      selectBestJobs jobs (Except.ok items) = (jobs.take 5).map fallbackJob ∧
      (selectBestJobs jobs (Except.ok items)).length = min 5 jobs.length) ∧
    (selectBestJobs jobs (Except.error ())
        = ((sortByPosted jobs).take 5).map fallbackJob ∧
      (selectBestJobs jobs (Except.error ())).length = min 5 jobs.length ∧
      ∀ r ∈ selectBestJobs jobs (Except.error ()),
        r.score = 50 ∧ r.reason = fallbackReasonS ∧ ∃ p ∈ jobs, r = fallbackJob p) := by
  constructor
  · intro h
    constructor
    · simp [selectBestJobs, h]
    · simp [selectBestJobs, h, List.length_take]
  · refine ⟨rfl, ?_, ?_⟩
    · simp [selectBestJobs, List.length_take, length_sortByPosted]
    · intro r hr
      simp only [selectBestJobs, List.mem_map] at hr
      rcases hr with ⟨p, hp, rfl⟩
      exact ⟨rfl, rfl, p, mem_sortByPosted p jobs (List.take_subset 5 _ hp), rfl⟩

/-- Witness for C1: a one-posting pool with an unmatched oracle item takes
the zero-reconciled fallback branch. -/
theorem c1_fallback_witness :
    reconcile [cxJobA] [cxItemNoMatch] = [] ∧
    (selectBestJobs [cxJobA] (Except.ok [cxItemNoMatch])
        = ([cxJobA].take 5).map fallbackJob ∧
      (selectBestJobs [cxJobA] (Except.ok [cxItemNoMatch])).length = min 5 1) :=
  ⟨by decide, (c1_fallback_amended [cxJobA] [cxItemNoMatch]).1 (by decide)⟩

/-- Counterexample for C1: with pool `[cxJobA, cxJobB]` (posted labels `"b"`,
`"a"`) and a failing oracle, the fallback returns the postings sorted by
`posted`, which is not the original pool order the claim states. -/
theorem c1_fallback_counterexample :
    selectBestJobs [cxJobA, cxJobB] (Except.error ())
        = [fallbackJob cxJobB, fallbackJob cxJobA] ∧
    ¬ (selectBestJobs [cxJobA, cxJobB] (Except.error ())
        = ([cxJobA, cxJobB].take 5).map fallbackJob) := by
  decide

/-- C2 (amended): the MatchingEngine never re-sorts.  On a successfully
parsed reply with a non-empty reconciliation, the output is exactly the
first five reconciled items in oracle response order, and its score list is
an order-preserving subsequence of the response's score list — so equal
scores appear in oracle response order, not in original pool order.  Hence
the output is sorted by score descending whenever the oracle response's
scores are; both fallback paths assign the constant score 50 and so are
also sorted. -/
theorem c2_sorted_amended (jobs : List JobPosting) (resp : Except Unit (List OracleItem)) :
    ((∀ items, resp = Except.ok items → sortedDescInt (items.map (fun it => it.score))) →
      sortedDescInt ((selectBestJobs jobs resp).map (fun r => r.score))) ∧
    (∀ items, resp = Except.ok items → reconcile jobs items ≠ [] →
      selectBestJobs jobs resp = (reconcile jobs items).take 5 ∧
      ((selectBestJobs jobs resp).map (fun r => r.score)).Sublist
        (items.map (fun it => it.score))) := by
  constructor
  · intro h
    cases resp with
    | ok selected =>
      by_cases hrec : reconcile jobs selected = []
      · simp only [selectBestJobs, hrec, if_pos]
        exact sortedDescInt_fallback (jobs.take 5)
      · simp only [selectBestJobs, if_neg hrec]
        have hsor : sortedDescInt (selected.map (fun it => it.score)) := h selected rfl
        have hsub : (((reconcile jobs selected).take 5).map (fun r => r.score)).Sublist
            (selected.map (fun it => it.score)) := by
          refine List.Sublist.trans ?_ (reconcile_scores_sublist jobs selected)
          rw [List.map_take]
          exact List.take_sublist _ _
        exact hsor.sublist hsub
    | error e =>
      exact sortedDescInt_fallback ((sortByPosted jobs).take 5)
  · intro items hi hrec
    cases hi
    have heq : selectBestJobs jobs (Except.ok items) = (reconcile jobs items).take 5 := by
      simp [selectBestJobs, hrec]
    refine ⟨heq, ?_⟩
    rw [heq, List.map_take]
    exact List.Sublist.trans (List.take_sublist _ _) (reconcile_scores_sublist jobs items)

/-- Witness for C2: a two-posting pool whose oracle reply reconciles both
items with descending scores 90, 10; the output keeps the response order,
its scores are a subsequence of the response's, and it is sorted. -/
theorem c2_sorted_witness :
    sortedDescInt ((selectBestJobs [cxJobA, cxJobB]
        (Except.ok [cxItemHigh, cxItemLow])).map (fun r => r.score)) ∧
    selectBestJobs [cxJobA, cxJobB] (Except.ok [cxItemHigh, cxItemLow])
      = (reconcile [cxJobA, cxJobB] [cxItemHigh, cxItemLow]).take 5 ∧
    ((selectBestJobs [cxJobA, cxJobB] (Except.ok [cxItemHigh, cxItemLow])).map
        (fun r => r.score)).Sublist
      ([cxItemHigh, cxItemLow].map (fun it => it.score)) := by
  have h := c2_sorted_amended [cxJobA, cxJobB] (Except.ok [cxItemHigh, cxItemLow])
  have hyp : ∀ items,
      (Except.ok [cxItemHigh, cxItemLow] : Except Unit (List OracleItem)) = Except.ok items →
      sortedDescInt (items.map (fun it => it.score)) := by
    intro items hi
    cases hi
    decide
  have hord := h.2 [cxItemHigh, cxItemLow] rfl (by decide)
  exact ⟨h.1 hyp, hord.1, hord.2⟩

/-- Counterexample for C2: the oracle returns two reconciled items with
ascending scores 10, 90; the engine keeps that order, so the output is not
sorted by score descending. -/
theorem c2_sorted_counterexample :
    ¬ sortedDescInt ((selectBestJobs [cxJobA, cxJobB]
        (Except.ok [cxItemLow, cxItemHigh])).map (fun r => r.score)) := by
  decide

/-- C3 (amended): every item returned by the MatchingEngine has score in
[0, 100] provided every score of the (successfully parsed) oracle response
lies in [0, 100]; both fallback paths always assign 50.  Without that
hypothesis the oracle's scores are passed through unclamped. -/
theorem c3_score_range_amended (jobs : List JobPosting)
    (resp : Except Unit (List OracleItem))
    (h : ∀ items, resp = Except.ok items → ∀ it ∈ items, 0 ≤ it.score ∧ it.score ≤ 100) :
    ∀ r ∈ selectBestJobs jobs resp, 0 ≤ r.score ∧ r.score ≤ 100 := by
  intro r hr
  cases resp with
  | ok selected =>
    by_cases hrec : reconcile jobs selected = []
    · simp only [selectBestJobs, hrec, if_pos, List.mem_map] at hr
      rcases hr with ⟨p, _, rfl⟩
      refine ⟨?_, ?_⟩
      · show (0 : Int) ≤ 50
        decide
      · show (50 : Int) ≤ 100
        decide
    · simp only [selectBestJobs, if_neg hrec] at hr
      have hmem : r ∈ reconcile jobs selected := List.take_subset 5 _ hr
      rcases mem_reconcile hmem with ⟨it, hit, p, _, _, _, rfl⟩
      exact h selected rfl it hit
  | error e =>
    simp only [selectBestJobs, List.mem_map] at hr
    rcases hr with ⟨p, _, rfl⟩
    refine ⟨?_, ?_⟩
    · show (0 : Int) ≤ 50
      decide
    · show (50 : Int) ≤ 100
      decide

/-- Witness for C3: an in-range oracle reply yields in-range output scores. -/
theorem c3_score_range_witness :
    (∀ items, (Except.ok [cxItemLow] : Except Unit (List OracleItem)) = Except.ok items →
      ∀ it ∈ items, 0 ≤ it.score ∧ it.score ≤ 100) ∧
    ∀ r ∈ selectBestJobs [cxJobA] (Except.ok [cxItemLow]), 0 ≤ r.score ∧ r.score ≤ 100 := by
  have hyp : ∀ items, (Except.ok [cxItemLow] : Except Unit (List OracleItem)) = Except.ok items →
      ∀ it ∈ items, 0 ≤ it.score ∧ it.score ≤ 100 := by
    intro items hi
    cases hi
    decide
  exact ⟨hyp, c3_score_range_amended [cxJobA] (Except.ok [cxItemLow]) hyp⟩

/-- Counterexample for C3: an oracle score of 150 on a matching item is
returned unclamped, so not every output score lies in [0, 100]. -/
theorem c3_score_range_counterexample :
    ¬ (∀ r ∈ selectBestJobs [cxJobA] (Except.ok [cxItemBig]),
        0 ≤ r.score ∧ r.score ≤ 100) := by
  decide

theorem searchJobsMessages_eq (profile : CandidateProfile) (region : Str)
    (maxResults : Nat) (prefs : Option PreferenceSet)
    (resp : Except Unit (List OracleItem)) :
    searchJobsMessages profile region maxResults prefs resp
      = searchJobsMessagesInit profile region maxResults prefs resp
        ++ [concluidoMsg (selectBestJobs (regionPool region) resp).length] := by
  simp [searchJobsMessages, searchJobsMessagesInit, List.append_assoc]

theorem concluido_split :
    (("[CONCLUIDO] Busca finalizada! ").data : Str)
      = ("[CONCLUIDO]").data ++ (" Busca finalizada! ").data := by
  decide

theorem hasSubstr_concluidoMsg (n : Nat) :
    hasSubstr (("[CONCLUIDO]").data) (concluidoMsg n) = true := by
  have hshape : concluidoMsg n
      = nl ++ ((("[CONCLUIDO]").data)
          ++ ((" Busca finalizada! ").data ++ (numStr n ++ (" vagas identificadas.\n").data))) := by
    show (nl ++ ("[CONCLUIDO] Busca finalizada! ").data ++ numStr n
        ++ (" vagas identificadas.\n").data : Str) = _
    rw [concluido_split]
    simp [List.append_assoc]
  rw [hshape]
  exact hasSubstr_append_mid _ _ _

theorem emittedEvents_generateTrace (profile : CandidateProfile) (region : Str)
    (maxResults : Nat) (prefs : Option PreferenceSet)
    (resp : Except Unit (List OracleItem)) (now : Nat) :
    emittedEvents (generateTrace profile region maxResults prefs resp now)
      = (searchJobsMessagesInit profile region maxResults prefs resp).map Event.data
        ++ [Event.data (concluidoMsg (selectBestJobs (regionPool region) resp).length),
            Event.endEvent] := by
  simp only [generateTrace, emittedEvents_append, emittedEvents_map_emit,
    searchJobsMessages_eq, List.map_append]
  simp [emittedEvents]

/-- C4: the displayed ranking of a search is `last_results[:max_results]`:
its length never exceeds 10 (the engine itself returns at most 5 items) nor
the requested cap, and it is a prefix of the internally computed ranking,
so the cap only truncates and never expands. -/
theorem c4_display_cap (jobs : List JobPosting) (resp : Except Unit (List OracleItem))
    (cap : Nat) (h1 : 1 ≤ cap) (h2 : cap ≤ 50) :
    (displayedJobs jobs resp cap).length ≤ 10 ∧
    (displayedJobs jobs resp cap).length ≤ cap ∧
    displayedJobs jobs resp cap <+: ensureJobContacts (selectBestJobs jobs resp) := by
  refine ⟨?_, ?_, ?_⟩
  · show ((ensureJobContacts (selectBestJobs jobs resp)).take cap).length ≤ 10
    rw [List.length_take, length_ensureJobContacts]
    have h5 := length_selectBestJobs_le jobs resp
    omega
  · show ((ensureJobContacts (selectBestJobs jobs resp)).take cap).length ≤ cap
    rw [List.length_take]
    omega
  · exact ⟨(ensureJobContacts (selectBestJobs jobs resp)).drop cap,
      List.take_append_drop cap _⟩

/-- Witness for C4 at the empty pool, failing oracle and cap 1. -/
theorem c4_display_cap_witness :
    1 ≤ 1 ∧ 1 ≤ 50 ∧
    ((displayedJobs [] (Except.error ()) 1).length ≤ 10 ∧
     (displayedJobs [] (Except.error ()) 1).length ≤ 1 ∧
     displayedJobs [] (Except.error ()) 1 <+: ensureJobContacts (selectBestJobs [] (Except.error ()))) :=
  ⟨by decide, by decide, c4_display_cap [] (Except.error ()) 1 (by decide) (by decide)⟩

/-- C8: every output of the reconciliation step comes from an oracle item
and a pool posting with exactly equal `(company, title)`; unmatched items
are dropped silently (the function is total); and when dropping empties the
result, the fallback engages over the original pool in pool order. -/
theorem c8_reconcile_exact (jobs : List JobPosting) (items : List OracleItem) :
    (∀ r ∈ reconcile jobs items, ∃ it ∈ items, ∃ p ∈ jobs,
        p.company = it.company ∧ p.title = it.title ∧ r = mkRanked it p) ∧
    (reconcile jobs items = [] →
      selectBestJobs jobs (Except.ok items) = (jobs.take 5).map fallbackJob) := by
  constructor
  · intro r hr
    exact mem_reconcile hr
  · intro h
    simp [selectBestJobs, h]

/-- Witness for C8: an oracle item naming a company absent from the pool is
dropped, and the emptied result engages the pool-order fallback. -/
theorem c8_reconcile_witness :
    reconcile [cxJobB] [cxItemNoMatch] = [] ∧
    selectBestJobs [cxJobB] (Except.ok [cxItemNoMatch])
      = ([cxJobB].take 5).map fallbackJob :=
  ⟨by decide, (c8_reconcile_exact [cxJobB] [cxItemNoMatch]).2 (by decide)⟩

/-- C9: any region value outside `br`, `int`, `both` (including case
variants such as `BR`) selects neither sample list, so the pool is empty,
the engine returns the empty list on every oracle outcome, the enriched
result set is empty, and the narration still runs to its `[CONCLUIDO]`
line (the search completes normally). -/
theorem c9_unknown_region (region : Str)
    (h : ¬ (region = ("br").data ∨ region = ("int").data ∨ region = ("both").data)) :
    regionPool region = [] ∧
    (∀ resp, selectBestJobs (regionPool region) resp = []) ∧
    (∀ resp, searchFullResults region resp = []) ∧
    (∀ profile maxResults prefs resp,
      searchJobsMessages profile region maxResults prefs resp
        = searchJobsMessagesInit profile region maxResults prefs resp
          ++ [concluidoMsg 0]) := by
  have hbr : ¬ (region = ("br").data ∨ region = ("both").data) := by tauto
  have hint : ¬ (region = ("int").data ∨ region = ("both").data) := by tauto
  have hpool : regionPool region = [] := by
    simp [regionPool, jobsBrFor, jobsIntFor, hbr, hint]
  have hsel : ∀ resp, selectBestJobs (regionPool region) resp = [] := by
    intro resp
    rw [hpool]
    cases resp with
    | ok selected => simp [selectBestJobs, reconcile_nil_jobs]
    | error e => simp [selectBestJobs, sortByPosted]
  refine ⟨hpool, hsel, ?_, ?_⟩
  · intro resp
    show ensureJobContacts (selectBestJobs (regionPool region) resp) = []
    rw [hsel resp]
    rfl
  · intro profile maxResults prefs resp
    have := searchJobsMessages_eq profile region maxResults prefs resp
    rwa [hsel resp] at this

/-- Witness for C9 at the case-variant region `"BR"`. -/
theorem c9_unknown_region_witness :
    ¬ ((("BR").data : Str) = ("br").data ∨ (("BR").data : Str) = ("int").data ∨
        (("BR").data : Str) = ("both").data) ∧
    regionPool (("BR").data) = [] ∧
    (∀ resp, selectBestJobs (regionPool (("BR").data)) resp = []) ∧
    (∀ resp, searchFullResults (("BR").data) resp = []) ∧
    (∀ profile maxResults prefs resp,
      searchJobsMessages profile (("BR").data) maxResults prefs resp
        = searchJobsMessagesInit profile (("BR").data) maxResults prefs resp
          ++ [concluidoMsg 0]) :=
  ⟨by decide, c9_unknown_region (("BR").data) (by decide)⟩

/-- C5 (amended): `ContactResolver` is pure and total; for a present,
parseable url (it contains `"//"`) the result is `"talentos@"` plus the
network authority with every occurrence of `"www."` removed (not only a
leading one); otherwise — absent url, unparseable url, or an authority
emptied by that removal — it is `"talentos@"` plus the lowercased company
with its space characters removed plus `".com"`; the claim's two examples
hold and the result is always non-empty. -/
theorem c5_contact_amended (company url : Str) :
    inferEmail company url
      = contactResolverAmended company (if url = [] then none else some url) ∧
    inferEmail (("Acme Co").data) (("https://jobs.acme.com/x").data)
      = ("talentos@jobs.acme.com").data ∧
    inferEmail (("Acme Co").data) [] = ("talentos@acmeco.com").data ∧
    0 < (inferEmail company url).length := by
  have happ : ∃ t, (("talentos@").data : Str) ++ t = inferEmail company url := ⟨_, rfl⟩
  refine ⟨?_, by decide, by decide, ?_⟩
  · by_cases h : url = []
    · subst h
      simp [inferEmail, contactResolverAmended]
    · simp [inferEmail, contactResolverAmended, h]
  · rcases happ with ⟨t, ht⟩
    have h9 : ((("talentos@").data : Str)).length = 9 := by decide
    rw [← ht, List.length_append, h9]
    omega

/-- Counterexample for C5: on the url `https://a.www.b.com/x` the claimed
behaviour (strip only a leading `www.` from the authority) yields
`talentos@a.www.b.com`, but the code removes the inner `www.` too and
returns `talentos@a.b.com`. -/
theorem c5_contact_counterexample :
    contactResolverClaim (("Acme").data) (some (("https://a.www.b.com/x").data))
      = ("talentos@a.www.b.com").data ∧
    inferEmail (("Acme").data) (("https://a.www.b.com/x").data)
      = ("talentos@a.b.com").data ∧
    ¬ ((("talentos@a.b.com").data : Str) = ("talentos@a.www.b.com").data) := by
  decide

/-- C6: a `ResultCache` read before any write returns
`{updated_at: none, results: []}`, and a read after a completed streaming
search returns exactly the full RankedJob list that search wrote, stamped
with the write time — whatever the cache held before. -/
theorem c6_result_cache :
    loadJobsCache none = { updated_at := none, results := [] } ∧
    ∀ (c0 : Option CacheSlot) (profile : CandidateProfile) (region : Str)
      (maxResults : Nat) (prefs : Option PreferenceSet)
      (resp : Except Unit (List OracleItem)) (now : Nat),
      loadJobsCache (execTrace c0 (generateTrace profile region maxResults prefs resp now))
        = { updated_at := some now, results := searchFullResults region resp } := by
  refine ⟨rfl, ?_⟩
  intro c0 profile region maxResults prefs resp now
  simp only [generateTrace]
  rw [execTrace_append, execTrace_map_emit]
  rfl

/-- C7: every terminal condition of the streaming search endpoint — success,
missing profile, or unavailable oracle — emits an event sequence that ends
with a terminal-marker content event (`[ERRO]` or `[CONCLUIDO]`) followed by
the distinct end-of-stream event. -/
theorem c7_stream_terminates (o : ApiOutcome) (region : Str) (maxResults : Nat)
    (prefs : Option PreferenceSet) (now : Nat) :
    ∃ pre msg,
      emittedEvents (searchApiTrace o region maxResults prefs now)
        = pre ++ [Event.data msg, Event.endEvent] ∧
      (hasSubstr (("[ERRO]").data) msg = true ∨
       hasSubstr (("[CONCLUIDO]").data) msg = true) := by
  cases o with
  | oracleUnavailable =>
    refine ⟨[], erroJobFinderMsg, rfl, Or.inl ?_⟩
    decide
  | profileMissing =>
    refine ⟨[], erroPerfilMsg, rfl, Or.inl ?_⟩
    decide
  | proceed profile resp =>
    refine ⟨(searchJobsMessagesInit profile region maxResults prefs resp).map Event.data,
      concluidoMsg (selectBestJobs (regionPool region) resp).length, ?_,
      Or.inr (hasSubstr_concluidoMsg _)⟩
    show emittedEvents (generateTrace profile region maxResults prefs resp now) = _
    rw [emittedEvents_generateTrace]

/-- C10: in the `generate` producer the cache write comes after every
narration event, so executing any prefix of the trace that is still within
the narration (an abandoned or failed search) leaves the previously cached
slot unchanged. -/
theorem c10_cache_write_last (profile : CandidateProfile) (region : Str)
    (maxResults : Nat) (prefs : Option PreferenceSet)
    (resp : Except Unit (List OracleItem)) (now : Nat)
    (c0 : Option CacheSlot) (k : Nat)
    (hk : k ≤ (searchJobsMessages profile region maxResults prefs resp).length) :
    execTrace c0 ((generateTrace profile region maxResults prefs resp now).take k) = c0 := by
  simp only [generateTrace]
  rw [List.take_append_of_le_length (by simpa using hk)]
  rw [← List.map_take]
  exact execTrace_map_emit c0 _ _

/-- Witness for C10: abandoning a concrete search after its third narration
event leaves an empty cache empty. -/
theorem c10_cache_write_last_witness :
    3 ≤ (searchJobsMessages cxProfile (("x").data) 10 none (Except.error ())).length ∧
    execTrace none
        ((generateTrace cxProfile (("x").data) 10 none (Except.error ()) 0).take 3) = none :=
  ⟨by decide,
   c10_cache_write_last cxProfile (("x").data) 10 none (Except.error ()) 0 none 3 (by decide)⟩
